import Mathlib

/-!
Shallow embedding of the transcode orchestration engine of `Smelt.py`
(NationalLibraryOfNorway/smelt).  Pure fragments of the Python source are
translated into executable Lean definitions; filesystem probes, operator
dialog answers and subprocess behaviour are passed in explicitly as data.
-/

namespace Smelt

/-- The three supported video input kinds, as returned by
`determine_file_type` (Smelt.py): `.mxf` extension, `.mov` extension, or a
folder (empty extension) holding a DPX frame sequence. -/
inductive FileType
  | dpx
  | mxf
  | mov
deriving DecidableEq

/-- `exist_check` (Smelt.py 1119-1136): if the target path exists, ask the
operator; answering No yields the no-clobber flag `-n`, otherwise
(answering Yes, or the path not existing) yields `-y`.  `ex` is the result
of `os.path.exists`, `answerYes` the operator's dialog answer. -/
def exist_check (ex : Bool) (answerYes : Bool) : String :=
  if ex then (if answerYes then "-y" else "-n") else "-y"

/-- Number of overwrite dialogs `exist_check` shows: one when the path
exists, none otherwise (the `QMessageBox.question` call sits inside the
`os.path.exists` branch). -/
def exist_check_prompts (ex : Bool) : Nat :=
  if ex then 1 else 0

/-- The ordered list of command attribute names `handle_video_operations`
(Smelt.py 816-833) passes to `execute_ffmpeg_commands` for a non-audio-only
job.  The source consults only the file type and `mezzaninfilCheckBox`;
the ProRes checkbox (`pro`) is never read here, it is threaded through only
so the dependence claimed by the specification can be stated. -/
def videoCommandNames (ft : FileType) (mezz : Bool) (_pro : Bool) : List String :=
  match ft with
  | FileType.mxf => ["ffmpeg_dcp_cmd", "ffmpeg_dcp_prores", "ffmpeg_dcp_h264_cmd"]
  | FileType.mov => ["ffmpeg_h264_from_prores_cmd"]
  | FileType.dpx =>
      if mezz then ["ffmpeg_lossless_cmd", "ffmpeg_prores_cmd", "ffmpeg_h264_cmd"]
      else ["ffmpeg_h264_cmd_direct"]

/-- The ordered list of command attribute names `handle_audio_operations`
(Smelt.py 835-840) passes to `execute_ffmpeg_commands` for an audio-only
job.  It is a constant: no checkbox is consulted. -/
def audioCommandNames : List String :=
  ["ffmpeg_lossless_audio_cmd", "ffmpeg_audio_cmd"]

/-- The §4.5 resolution table of the specification for image-sequence jobs,
written from the spec's words (for comparison with `videoCommandNames`):
(off,off) ↦ [direct-h264]; (off,on) ↦ [prores-from-sequence-path,
direct-h264]; (on,off) ↦ [lossless, h264-from-lossless]; (on,on) ↦
[lossless, prores, h264-from-lossless]. -/
def specSequenceSteps (mezz : Bool) (pro : Bool) : List String :=
  match mezz, pro with
  | false, false => ["ffmpeg_h264_cmd_direct"]
  | false, true  => ["ffmpeg_prores_from_sequence", "ffmpeg_h264_cmd_direct"]
  | true,  false => ["ffmpeg_lossless_cmd", "ffmpeg_h264_cmd"]
  | true,  true  => ["ffmpeg_lossless_cmd", "ffmpeg_prores_cmd", "ffmpeg_h264_cmd"]

/-- Per-job configuration feeding the command builders: checkbox states,
the CUDA probe result, the selected paths, and the environment answers
(`os.path.exists` results and operator overwrite answers) consumed by
`initial_setup` (Smelt.py 696-748). -/
structure Cfg where
  ffmpeg_path : String
  cuda : Bool
  fps : String
  folder_path : String
  folder_name : String
  pfx : String
  lyd : Bool
  mezz : Bool
  pro : Bool
  audio_file : String
  audio_exists : Bool
  video : String
  exists_h264 : Bool
  exists_lossless : Bool
  exists_prores : Bool
  ans_h264 : Bool
  ans_lossless : Bool
  ans_prores : Bool

/-- `self.lossless_mov` (Smelt.py 738): `<folder>/lossless/<name>.mov`. -/
def Cfg.lossless_mov (c : Cfg) : String :=
  c.folder_path ++ "/lossless/" ++ c.folder_name ++ ".mov"

/-- `self.prores_mov` (Smelt.py 739): `<folder>/lossless/<name>_prores.mov`. -/
def Cfg.prores_mov (c : Cfg) : String :=
  c.folder_path ++ "/lossless/" ++ c.folder_name ++ "_prores.mov"

/-- `self.h264_mp4` (Smelt.py 740): `<folder>/lossless/nb-no_<name>.mp4`. -/
def Cfg.h264_mp4 (c : Cfg) : String :=
  c.folder_path ++ "/lossless/nb-no_" ++ c.folder_name ++ ".mp4"

/-- `self.proceed_h264` (Smelt.py 744): always an `exist_check` on the
H.264 output. -/
def Cfg.proceed_h264 (c : Cfg) : String :=
  exist_check c.exists_h264 c.ans_h264

/-- `self.proceed_lossless` (Smelt.py 745): `exist_check` on the lossless
output when the mezzanine checkbox is on, the literal `-n` otherwise. -/
def Cfg.proceed_lossless (c : Cfg) : String :=
  if c.mezz then exist_check c.exists_lossless c.ans_lossless else "-n"

/-- `self.proceed_prores` (Smelt.py 746): `exist_check` on the ProRes
output when the ProRes checkbox is on, the literal `-n` otherwise. -/
def Cfg.proceed_prores (c : Cfg) : String :=
  if c.pro then exist_check c.exists_prores c.ans_prores else "-n"

/-- `self.ffmpeg_hardware_accel` (Smelt.py 717-728). -/
def Cfg.ffmpeg_hardware_accel (c : Cfg) : List String :=
  if c.cuda then ["-hwaccel", "cuda"] else ["-hwaccel", "auto"]

/-- `self.ffmpeg_encoder` (Smelt.py 721-732). -/
def Cfg.ffmpeg_encoder (c : Cfg) : List String :=
  if c.cuda then ["-c:v", "hevc_nvenc", "-pix_fmt", "yuv422p10le"]
  else ["-c:v", "libx264", "-pix_fmt", "yuv422p10le"]

/-- `self.ffmpeg_base` (Smelt.py 891-895). -/
def Cfg.ffmpeg_base (c : Cfg) : List String :=
  [c.ffmpeg_path, "-v", "info", "-stats", "-progress", "-"]

/-- `ffmpeg_input_pattern` (Smelt.py 889): folder joined with the
non-digit prefix of the first frame filename plus `%06d.dpx`. -/
def Cfg.ffmpeg_input_pattern (c : Cfg) : String :=
  c.folder_path ++ "/" ++ c.pfx ++ "%06d.dpx"

/-- `ffmpeg_dpx` (Smelt.py 897-906): the image-sequence input arguments,
extended with the audio input when the audio checkbox is on and the audio
file exists. -/
def Cfg.ffmpeg_dpx (c : Cfg) : List String :=
  ["-f", "image2", "-vsync", "0", "-framerate", c.fps, "-start_number", "0",
   "-i", c.ffmpeg_input_pattern] ++
  (if c.lyd && c.audio_exists then ["-i", c.audio_file] else [])

/-- `audio_cmd` (Smelt.py 905-909). -/
def Cfg.audio_cmd (c : Cfg) : List String :=
  if c.lyd && c.audio_exists then ["-c:a", "copy"] else []

/-- `self.ffmpeg_lossless_cmd` (Smelt.py 911-916). -/
def Cfg.ffmpeg_lossless_cmd (c : Cfg) : List String :=
  c.ffmpeg_base ++ c.ffmpeg_hardware_accel ++ c.ffmpeg_dpx ++
  c.ffmpeg_encoder ++ c.audio_cmd ++
  ["-qp", "0", c.lossless_mov, c.proceed_lossless]

/-- `self.ffmpeg_h264_cmd_direct` (Smelt.py 918-942). -/
def Cfg.ffmpeg_h264_cmd_direct (c : Cfg) : List String :=
  if c.lyd then
    c.ffmpeg_base ++ c.ffmpeg_hardware_accel ++ c.ffmpeg_dpx ++ c.audio_cmd ++
    ["-c:v", "libx264", "-pix_fmt", "yuv420p", "-vf", "scale=-2:1080",
     "-preset", "slow", "-crf", "23", "-c:a", "aac", "-b:a", "224k",
     "-map", "0:v:0", "-map", "1:a:0", c.h264_mp4, c.proceed_h264]
  else
    c.ffmpeg_base ++ c.ffmpeg_hardware_accel ++ c.ffmpeg_dpx ++
    ["-c:v", "libx264", "-pix_fmt", "yuv420p", "-vf", "scale=-2:1080",
     "-preset", "slow", "-crf", "23", "-map", "0:v:0",
     c.h264_mp4, c.proceed_h264]

/-- `self.ffmpeg_prores_cmd` (Smelt.py 944-952): reads the lossless
output. -/
def Cfg.ffmpeg_prores_cmd (c : Cfg) : List String :=
  c.ffmpeg_base ++ c.ffmpeg_hardware_accel ++
  ["-i", c.lossless_mov, "-c:v", "prores", "-profile:v", "3",
   "-vf", "scale=-2:1080", "-c:a", "pcm_s16le", c.prores_mov, c.proceed_prores]

/-- `self.ffmpeg_h264_cmd` (Smelt.py 954-965): reads the lossless
output. -/
def Cfg.ffmpeg_h264_cmd (c : Cfg) : List String :=
  c.ffmpeg_base ++ c.ffmpeg_hardware_accel ++ ["-i", c.lossless_mov] ++
  c.ffmpeg_encoder ++
  ["-vf", "scale=-2:1080", "-pix_fmt", "yuv420p", "-preset", "slow",
   "-crf", "23", "-c:a", "aac", "-b:a", "224k", c.h264_mp4, c.proceed_h264]

/-- `ffmpeg_video_audio` (Smelt.py 1005-1012).  In the source the guard is
`self.inkluderLydCheckBox.isChecked and self.audio_file`: `isChecked` is a
bound method (not called), hence always truthy, so only the audio path
being non-empty decides. -/
def Cfg.ffmpeg_video_audio (c : Cfg) : List String :=
  if c.audio_file ≠ "" then ["-i", c.video, "-i", c.audio_file]
  else ["-i", c.video]

/-- `ffmpeg_audio_param` (Smelt.py 1007-1013), same guard as
`Cfg.ffmpeg_video_audio`. -/
def Cfg.ffmpeg_audio_param (c : Cfg) : List String :=
  if c.audio_file ≠ "" then ["-c:a", "aac", "-b:a", "224k"] else []

/-- `self.ffmpeg_dcp_cmd` (Smelt.py 1014-1021). -/
def Cfg.ffmpeg_dcp_cmd (c : Cfg) : List String :=
  [c.ffmpeg_path] ++ c.ffmpeg_hardware_accel ++ c.ffmpeg_video_audio ++
  c.ffmpeg_encoder ++
  ["-preset", "slow", "-qp", "0", "-c:a", "copy", "-v", "info",
   c.lossless_mov, c.proceed_lossless]

/-- `self.ffmpeg_dcp_prores` (Smelt.py 1022-1030). -/
def Cfg.ffmpeg_dcp_prores (c : Cfg) : List String :=
  [c.ffmpeg_path] ++ c.ffmpeg_hardware_accel ++ c.ffmpeg_video_audio ++
  ["-c:v", "prores", "-profile:v", "3", "-pix_fmt", "yuv422p10le",
   "-vf", "scale=-2:1080", "-c:a", "pcm_s16le", c.prores_mov, c.proceed_prores]

/-- `self.ffmpeg_dcp_h264_cmd` (Smelt.py 1031-1041). -/
def Cfg.ffmpeg_dcp_h264_cmd (c : Cfg) : List String :=
  [c.ffmpeg_path] ++ c.ffmpeg_hardware_accel ++ c.ffmpeg_video_audio ++
  ["-c:v", "libx264", "-pix_fmt", "yuv420p", "-preset", "slow",
   "-crf", "21", "-ac", "2"] ++ c.ffmpeg_audio_param ++
  ["-v", "info", c.h264_mp4, c.proceed_h264]

/-- `self.ffmpeg_h264_from_prores_cmd` (Smelt.py 1042-1051). -/
def Cfg.ffmpeg_h264_from_prores_cmd (c : Cfg) : List String :=
  [c.ffmpeg_path] ++ c.ffmpeg_hardware_accel ++ c.ffmpeg_video_audio ++
  ["-c:v", "libx264", "-vf", "scale=-2:1080", "-pix_fmt", "yuv420p",
   "-preset", "slow", "-crf", "23", "-v", "info", c.h264_mp4, c.proceed_h264]

/-- `self.ffmpeg_audio_cmd` (Smelt.py 1074-1083). -/
def Cfg.ffmpeg_audio_cmd (c : Cfg) : List String :=
  [c.ffmpeg_path, "-i", c.audio_file, "-c:a", "aac", "-b:a", "192k",
   "-vn", "-v", "info", c.h264_mp4, c.proceed_h264]

/-- `self.ffmpeg_lossless_audio_cmd` (Smelt.py 1084-1092). -/
def Cfg.ffmpeg_lossless_audio_cmd (c : Cfg) : List String :=
  [c.ffmpeg_path, "-i", c.audio_file, "-c:a", "pcm_s16le",
   "-vn", "-v", "info", c.lossless_mov, c.proceed_lossless]

/-- A built transcode step: stage name, full argument vector, the output
path it writes, and the overwrite flag appended for that path. -/
structure TranscodeStep where
  id : String
  argv : List String
  writesTo : String
  flag : String

/-- Environment of `recognize_and_combine_audio_files` (Smelt.py 448-510):
the selected stem file, the recovered base name and directory, which
sibling stem files exist, the operator's answers and the combine
subprocess outcome. -/
structure StemEnv where
  ffmpeg_path : String
  selected : String
  directory : String
  base : String
  presentSuffix : String → Bool
  confirmCombine : Bool
  combined_exists : Bool
  ans_combined : Bool
  ffmpegSucceeds : Bool

/-- The six channel tags probed, in the fixed order of the `suffixes`
dict (Smelt.py 461-468). -/
def stemSuffixes : List String := ["L", "R", "C", "LFE", "Ls", "Rs"]

/-- `os.path.join(directory, "{base}.{suffix}.wav")` (Smelt.py 472). -/
def StemEnv.stemPath (e : StemEnv) (suffix : String) : String :=
  e.directory ++ "/" ++ e.base ++ "." ++ suffix ++ ".wav"

/-- The combined-output path (Smelt.py 488). -/
def StemEnv.combinedFile (e : StemEnv) : String :=
  e.directory ++ "/" ++ e.base ++ "_combined.wav"

/-- `proceed_combine` (Smelt.py 489): an `exist_check` on the combined
file. -/
def StemEnv.proceed_combine (e : StemEnv) : String :=
  exist_check e.combined_exists e.ans_combined

/-- `ffmpeg_combine_audio_cmd` (Smelt.py 491-504): six `-i` inputs in the
order L,R,C,LFE,Ls,Rs, an explicit one-to-one channel-merge filter graph,
and the combined output plus its overwrite flag. -/
def StemEnv.combine_cmd (e : StemEnv) : List String :=
  [e.ffmpeg_path,
   "-i", e.stemPath "L", "-i", e.stemPath "R", "-i", e.stemPath "C",
   "-i", e.stemPath "LFE", "-i", e.stemPath "Ls", "-i", e.stemPath "Rs",
   "-filter_complex",
   "[0][1][2][3][4][5]amerge=inputs=6,pan=6c|c0<c0|c1<c1|c2<c2|c3<c3|c4<c4|c5<c5",
   "-ac", "6", "-c:a", "pcm_s16le", e.combinedFile, e.proceed_combine]

/-- The combine step as a `TranscodeStep`. -/
def StemEnv.combineStep (e : StemEnv) : TranscodeStep :=
  ⟨"ffmpeg_combine_audio_cmd", e.combine_cmd, e.combinedFile, e.proceed_combine⟩

/-- Exit code and captured standard-error lines of one step's subprocess:
the environment data `run_ffmpeg_command` (Smelt.py 1138-1216) observes. -/
structure StepBehavior where
  exitCode : Int
  stderr : List String

/-- `run_ffmpeg_command`'s return value (Smelt.py 1213-1216): `true` iff
the subprocess exit code is zero; on a non-zero exit it appends
`Error: <joined stderr>` to the log and returns `false`. -/
def run_ffmpeg_command (b : StepBehavior) : Bool :=
  b.exitCode == 0

/-- `execute_ffmpeg_commands` (Smelt.py 1094-1108): runs the named
commands strictly in list order; when `run_ffmpeg_command` reports
failure the loop `break`s.  Returns the names whose subprocess was
launched, in order, together with — when a step failed — that step's name
and its captured diagnostic lines. -/
def execute_ffmpeg_commands (bhv : String → StepBehavior) :
    List String → List String × Option (String × List String)
  | [] => ([], none)
  | n :: rest =>
    if run_ffmpeg_command (bhv n) then
      let r := execute_ffmpeg_commands bhv rest
      (n :: r.1, r.2)
    else ([n], some (n, (bhv n).stderr))

/-- Environment of one `run_smelt` invocation (Smelt.py 654-694): checkbox
states, the selected folder, the detected file type, the `*.dpx` glob
result, the operator's first-frame confirmation, and the behaviour of each
named subprocess. -/
structure SmeltEnv where
  kunLyd : Bool
  folder_path : String
  filetype : Option FileType
  dpxFiles : List String
  confirmFrame : Bool
  mezz : Bool
  pro : Bool
  bhv : String → StepBehavior

/-- `check_dpx_files` (Smelt.py 750-773): with no `*.dpx` match, warn
("Finner ingen .dpx filer") and return `False`; otherwise ask the operator
to confirm the detected first frame. -/
def check_dpx_files (files : List String) (confirmFrame : Bool) :
    Bool × List String :=
  if files.isEmpty then (false, ["Finner ingen .dpx filer"])
  else if confirmFrame then (true, []) else (false, [])

/-- The validation part of `initial_setup` (Smelt.py 696-713): for a
non-audio-only job require a selected folder, and for a DPX job require
`check_dpx_files` to succeed; the rest of the function (encoder choice,
path derivation, overwrite checks) cannot fail.  Returns success plus the
warnings reported. -/
def initial_setup (e : SmeltEnv) : Bool × List String :=
  if e.kunLyd then (true, [])
  else if e.folder_path = "" then (false, ["Ingen mappe valgt"])
  else
    match e.filetype with
    | some FileType.dpx => check_dpx_files e.dpxFiles e.confirmFrame
    | _ => (true, [])

/-- Observable outcome of one `run_smelt` invocation: the warnings shown,
whether any `construct_*_commands` builder ran, the subprocesses launched
(in order), the failing step with its diagnostics if any, and the final
step label (always reset to "Idle", Smelt.py 666 and 694). -/
structure RunOutcome where
  warnings : List String
  commandsBuilt : Bool
  launched : List String
  failure : Option (String × List String)
  finalLabel : String
deriving DecidableEq

/-- `run_smelt` (Smelt.py 654-694): a failed `initial_setup` returns to
idle at once; otherwise `handle_audio_operations` or
`handle_video_operations` builds the commands and executes the resolved
name list. -/
def run_smelt (e : SmeltEnv) : RunOutcome :=
  let s := initial_setup e
  if s.1 then
    let names :=
      if e.kunLyd then audioCommandNames
      else
        match e.filetype with
        | some ft => videoCommandNames ft e.mezz e.pro
        | none => []
    let r := execute_ffmpeg_commands e.bhv names
    ⟨s.2, e.kunLyd || e.filetype.isSome, r.1, r.2, "Idle"⟩
  else ⟨s.2, false, [], none, "Idle"⟩

/-- Result of `recognize_and_combine_audio_files`: the combined file, the
originally selected file (operator declined), `incomplete` (warning
"Ikke alle nødvendige lydfiler ... ble funnet." then `None`), or `None`
after a failed combine subprocess. -/
inductive CombineResult
  | keepOriginal (path : String)
  | incomplete
  | runFailed
  | combined (path : String)
deriving DecidableEq

/-- A combiner run: its result and the commands it launched. -/
structure CombineOutcome where
  result : CombineResult
  commandsRun : List (List String)
deriving DecidableEq

/-- `recognize_and_combine_audio_files` (Smelt.py 448-510): probe the six
sibling stem files (`os.path.exists`, Smelt.py 470-474); ask the
combination question — a No answer returns the selected file unchanged
(Smelt.py 481-482); with fewer than six stems present warn and return
`None` (Smelt.py 484-486); otherwise build the combine command and run
it. -/
def recognize_and_combine (e : StemEnv) : CombineOutcome :=
  let matching := stemSuffixes.filter e.presentSuffix
  if ¬ e.confirmCombine then ⟨CombineResult.keepOriginal e.selected, []⟩
  else if matching.length ≠ stemSuffixes.length then ⟨CombineResult.incomplete, []⟩
  else if e.ffmpegSucceeds then
    ⟨CombineResult.combined e.combinedFile, [e.combine_cmd]⟩
  else ⟨CombineResult.runFailed, [e.combine_cmd]⟩

/-- One line of the transcoder's diagnostic stream as seen by the progress
loop of `run_ffmpeg_command` (Smelt.py 1186-1207): the captures of the
`Duration: HH:MM:SS.ff` regex if it matched, the captures of the
`time=HH:MM:SS.ff` regex if it matched, and the wall-clock elapsed time
observed while handling the line (`time.time() - start_time`). -/
structure DiagLine where
  durationMark : Option (Nat × Nat × Nat × Nat)
  timeMark : Option (Nat × Nat × Nat × Nat)
  elapsedWall : ℚ

/-- `hours * 3600 + minutes * 60 + seconds` (Smelt.py 1189-1192 and
1197-1200): the fractional capture is discarded. -/
def hmsSeconds : Nat × Nat × Nat × Nat → Nat
  | (h, m, s, _) => h * 3600 + m * 60 + s

/-- The `total_duration` update for one line (Smelt.py 1186-1193): parsed
once, from the first line whose duration regex matches, and never
reparsed afterwards (`if total_duration is None`). -/
def updateDuration (total : Option Nat) (l : DiagLine) : Option Nat :=
  match total with
  | none =>
    match l.durationMark with
    | some d => some (hmsSeconds d)
    | none => none
  | some t => some t

/-- The progress computation for one line (Smelt.py 1195-1207): requires a
time match and a truthy `total_duration` (Python truthiness: not `None`
and non-zero); percent is `current / total * 100`; the ETA is
`elapsed * (100 - percent) / percent` when the percent is positive, else
`0`. -/
def lineProgress (total : Option Nat) (l : DiagLine) : Option (ℚ × ℚ) :=
  match l.timeMark, total with
  | some tm, some td =>
    if td = 0 then none
    else
      let progress : ℚ := (hmsSeconds tm : ℚ) / (td : ℚ) * 100
      let remaining : ℚ :=
        if 0 < progress then l.elapsedWall * (100 - progress) / progress else 0
      some (progress, remaining)
  | _, _ => none

/-- The `total_duration` state after a list of lines has been handled. -/
def foldDuration (total : Option Nat) (ls : List DiagLine) : Option Nat :=
  ls.foldl updateDuration total

/-- The `(percent, eta)` progress-bar updates the loop emits over a
diagnostic stream, in order (each line first updates `total_duration`,
then may emit). -/
def runProgress (total : Option Nat) : List DiagLine → List (ℚ × ℚ)
  | [] => []
  | l :: ls =>
    let t := updateDuration total l
    match lineProgress t l with
    | some u => u :: runProgress t ls
    | none => runProgress t ls

/-- The first duration marker appearing in a stream, if any. -/
def firstDurationMark (ls : List DiagLine) : Option (Nat × Nat × Nat × Nat) :=
  (ls.filterMap DiagLine.durationMark).head?

/-- A concrete job configuration used to instantiate theorems with
hypotheses. -/
def sampleCfg : Cfg :=
  { ffmpeg_path := "ffmpeg", cuda := false, fps := "24",
    folder_path := "/p", folder_name := "p", pfx := "f",
    lyd := true, mezz := true, pro := true,
    audio_file := "/p/a.wav", audio_exists := true, video := "/p/v.mxf",
    exists_h264 := false, exists_lossless := false, exists_prores := false,
    ans_h264 := true, ans_lossless := true, ans_prores := true }

/-- `sampleCfg` with the mezzanine checkbox off. -/
def sampleCfgMezzOff : Cfg :=
  { sampleCfg with mezz := false }

/-- A concrete stem-combiner environment with all six stems present. -/
def sampleStemEnv : StemEnv :=
  { ffmpeg_path := "ffmpeg", selected := "/p/a.L.wav", directory := "/p",
    base := "a", presentSuffix := fun _ => true, confirmCombine := true,
    combined_exists := false, ans_combined := true, ffmpegSucceeds := true }

/-- A stem-combiner environment where the `.Rs` stem is missing and the
operator declines the combination. -/
def incompleteDeclinedEnv : StemEnv :=
  { ffmpeg_path := "ffmpeg", selected := "/p/a.L.wav", directory := "/p",
    base := "a", presentSuffix := fun s => s != "Rs", confirmCombine := false,
    combined_exists := false, ans_combined := false, ffmpegSucceeds := true }

/-- `incompleteDeclinedEnv` with the operator confirming instead. -/
def incompleteConfirmedEnv : StemEnv :=
  { incompleteDeclinedEnv with confirmCombine := true }

/-- Concrete step behaviours: the prores step fails, everything else
succeeds. -/
def sampleBhv : String → StepBehavior :=
  fun n => if n = "ffmpeg_prores_cmd" then ⟨1, ["prores failed"]⟩ else ⟨0, []⟩

/-- A concrete environment for an image-sequence job whose folder holds no
`*.dpx` file. -/
def emptyDpxEnv : SmeltEnv :=
  { kunLyd := false, folder_path := "/p", filetype := some FileType.dpx,
    dpxFiles := [], confirmFrame := true, mezz := true, pro := true,
    bhv := fun _ => ⟨0, []⟩ }

/-- A concrete diagnostic line carrying only the duration marker
`Duration: 00:10:00.00`. -/
def durationLine : DiagLine :=
  ⟨some (0, 10, 0, 0), none, 0⟩

/-- A concrete diagnostic line carrying only the time marker
`time=00:05:00.00`. -/
def timeLine : DiagLine :=
  ⟨none, some (0, 5, 0, 0), 0⟩

/-- Every step any builder produces (`construct_dpx_commands`,
`construct_mxf_mov_commands`, `construct_audio_commands`, and the stem
combiner), each paired with the output path it writes and the overwrite
flag chosen for that path. -/
def allBuiltSteps (c : Cfg) (e : StemEnv) : List TranscodeStep :=
  [⟨"ffmpeg_lossless_cmd", c.ffmpeg_lossless_cmd, c.lossless_mov, c.proceed_lossless⟩,
   ⟨"ffmpeg_h264_cmd_direct", c.ffmpeg_h264_cmd_direct, c.h264_mp4, c.proceed_h264⟩,
   ⟨"ffmpeg_prores_cmd", c.ffmpeg_prores_cmd, c.prores_mov, c.proceed_prores⟩,
   ⟨"ffmpeg_h264_cmd", c.ffmpeg_h264_cmd, c.h264_mp4, c.proceed_h264⟩,
   ⟨"ffmpeg_dcp_cmd", c.ffmpeg_dcp_cmd, c.lossless_mov, c.proceed_lossless⟩,
   ⟨"ffmpeg_dcp_prores", c.ffmpeg_dcp_prores, c.prores_mov, c.proceed_prores⟩,
   ⟨"ffmpeg_dcp_h264_cmd", c.ffmpeg_dcp_h264_cmd, c.h264_mp4, c.proceed_h264⟩,
   ⟨"ffmpeg_h264_from_prores_cmd", c.ffmpeg_h264_from_prores_cmd, c.h264_mp4, c.proceed_h264⟩,
   ⟨"ffmpeg_audio_cmd", c.ffmpeg_audio_cmd, c.h264_mp4, c.proceed_h264⟩,
   ⟨"ffmpeg_lossless_audio_cmd", c.ffmpeg_lossless_audio_cmd, c.lossless_mov, c.proceed_lossless⟩,
   e.combineStep]

end Smelt

namespace Smelt

/-- Helper: `exist_check` only ever returns one of the two flags. -/
theorem exist_check_mem (ex a : Bool) :
    exist_check ex a = "-y" ∨ exist_check ex a = "-n" := by
  cases ex <;> cases a <;> simp [exist_check]

/-- Helper: every proceed flag derived by `initial_setup` is `-y` or
`-n`. -/
theorem proceed_flags_mem (c : Cfg) :
    (c.proceed_h264 = "-y" ∨ c.proceed_h264 = "-n") ∧
    (c.proceed_lossless = "-y" ∨ c.proceed_lossless = "-n") ∧
    (c.proceed_prores = "-y" ∨ c.proceed_prores = "-n") := by
  refine ⟨exist_check_mem _ _, ?_, ?_⟩ <;>
    simp only [Cfg.proceed_lossless, Cfg.proceed_prores] <;>
    split <;> first | exact exist_check_mem _ _ | simp

/-- C5: `exist_check` returns `-y` (Proceed) for a non-existent path with
zero prompt calls, and for an existing path shows exactly one prompt and
returns the operator's answer mapped yes ↦ `-y` (Proceed) / no ↦ `-n`
(Skip). -/
theorem exist_check_decide_spec :
    ∀ a : Bool,
      exist_check false a = "-y" ∧
      exist_check_prompts false = 0 ∧
      exist_check true a = (if a then "-y" else "-n") ∧
      exist_check_prompts true = 1 := by
  intro a
  cases a <;> simp [exist_check, exist_check_prompts]

/-- C1 counterexample: for an image-sequence job with mezzanine off and
ProRes on, the resolved step list is the single direct-H.264 command, not
the two-element list `[prores-from-sequence-path, direct-h264]` demanded by
the §4.5 table, so the claimed table does not describe the code. -/
theorem videoCommandNames_dpx_off_on_cex :
    videoCommandNames FileType.dpx false true = ["ffmpeg_h264_cmd_direct"] ∧
    videoCommandNames FileType.dpx false true ≠ specSequenceSteps false true := by
  decide

/-- C1 amended: for image-sequence jobs the resolved step list depends only
on the mezzanine toggle — off gives exactly [direct-h264], on gives exactly
[lossless, prores, h264-from-lossless] — for every value of the ProRes
toggle (which influences only the prores step's overwrite flag). -/
theorem videoCommandNames_dpx_spec :
    ∀ m p : Bool,
      videoCommandNames FileType.dpx m p =
        if m then ["ffmpeg_lossless_cmd", "ffmpeg_prores_cmd", "ffmpeg_h264_cmd"]
        else ["ffmpeg_h264_cmd_direct"] := by
  decide

/-- C2 counterexample: for an MXF job with both toggles off the resolved
step list still contains the lossless step (and the prores step), and for a
MOV job with the mezzanine toggle on it does not contain the lossless step
— refuting that lossless is included iff the mezzanine toggle is on. -/
theorem videoCommandNames_container_cex :
    "ffmpeg_dcp_cmd" ∈ videoCommandNames FileType.mxf false false ∧
    "ffmpeg_dcp_prores" ∈ videoCommandNames FileType.mxf false false ∧
    "ffmpeg_dcp_cmd" ∉ videoCommandNames FileType.mov true true := by
  decide

/-- C2 amended: container jobs ignore both toggles for step selection: an
MXF job always resolves to exactly [lossless, prores, h264-from-source]
(h264 last), a MOV job always to exactly [h264-from-source]; the toggles
influence only the per-output overwrite flags. -/
theorem videoCommandNames_container_spec :
    ∀ m p : Bool,
      videoCommandNames FileType.mxf m p =
        ["ffmpeg_dcp_cmd", "ffmpeg_dcp_prores", "ffmpeg_dcp_h264_cmd"] ∧
      videoCommandNames FileType.mov m p = ["ffmpeg_h264_from_prores_cmd"] := by
  decide

/-- C8 counterexample: the audio-only step list is a constant that always
contains the lossless-audio step, so in particular it contains it when the
mezzanine toggle is off, refuting inclusion iff the toggle is on. -/
theorem audioCommandNames_cex :
    "ffmpeg_lossless_audio_cmd" ∈ audioCommandNames ∧
    audioCommandNames.length = 2 := by
  decide

/-- C8 amended: the audio-only step list is always exactly
[lossless-audio, aac-audio]; the mezzanine toggle does not change the
list, it only forces the lossless output's overwrite flag to `-n` when
off. -/
theorem audioCommandNames_spec :
    audioCommandNames = ["ffmpeg_lossless_audio_cmd", "ffmpeg_audio_cmd"] ∧
    (∀ c : Cfg, c.mezz = false → c.proceed_lossless = "-n") := by
  constructor
  · rfl
  · intro c h
    simp [Cfg.proceed_lossless, h]

/-- C9: every step any command builder produces has an argv ending in
exactly `[outputPath, overwriteFlag]` with the flag one of `-y`/`-n`,
derived (via `exist_check` and the toggles) from the overwrite decision
for that output path. -/
theorem builtSteps_end_with_output_flag (c : Cfg) (e : StemEnv)
    (s : TranscodeStep) (hs : s ∈ allBuiltSteps c e) :
    (∃ pre, s.argv = pre ++ [s.writesTo, s.flag]) ∧
    (s.flag = "-y" ∨ s.flag = "-n") := by
  have hp := proceed_flags_mem c
  have hcomb := exist_check_mem e.combined_exists e.ans_combined
  simp only [allBuiltSteps, List.mem_cons, List.not_mem_nil, or_false] at hs
  rcases hs with h | h | h | h | h | h | h | h | h | h | h <;> subst h
  · exact ⟨⟨c.ffmpeg_base ++ c.ffmpeg_hardware_accel ++ c.ffmpeg_dpx ++
        c.ffmpeg_encoder ++ c.audio_cmd ++ ["-qp", "0"],
      by simp [Cfg.ffmpeg_lossless_cmd]⟩, hp.2.1⟩
  · refine ⟨?_, hp.1⟩
    by_cases hl : c.lyd
    · exact ⟨c.ffmpeg_base ++ c.ffmpeg_hardware_accel ++ c.ffmpeg_dpx ++
          c.audio_cmd ++
          ["-c:v", "libx264", "-pix_fmt", "yuv420p", "-vf", "scale=-2:1080",
           "-preset", "slow", "-crf", "23", "-c:a", "aac", "-b:a", "224k",
           "-map", "0:v:0", "-map", "1:a:0"],
        by simp [Cfg.ffmpeg_h264_cmd_direct, hl]⟩
    · exact ⟨c.ffmpeg_base ++ c.ffmpeg_hardware_accel ++ c.ffmpeg_dpx ++
          ["-c:v", "libx264", "-pix_fmt", "yuv420p", "-vf", "scale=-2:1080",
           "-preset", "slow", "-crf", "23", "-map", "0:v:0"],
        by simp [Cfg.ffmpeg_h264_cmd_direct, hl]⟩
  · exact ⟨⟨c.ffmpeg_base ++ c.ffmpeg_hardware_accel ++
        ["-i", c.lossless_mov, "-c:v", "prores", "-profile:v", "3",
         "-vf", "scale=-2:1080", "-c:a", "pcm_s16le"],
      by simp [Cfg.ffmpeg_prores_cmd]⟩, hp.2.2⟩
  · exact ⟨⟨c.ffmpeg_base ++ c.ffmpeg_hardware_accel ++ ["-i", c.lossless_mov] ++
        c.ffmpeg_encoder ++
        ["-vf", "scale=-2:1080", "-pix_fmt", "yuv420p", "-preset", "slow",
         "-crf", "23", "-c:a", "aac", "-b:a", "224k"],
      by simp [Cfg.ffmpeg_h264_cmd]⟩, hp.1⟩
  · exact ⟨⟨[c.ffmpeg_path] ++ c.ffmpeg_hardware_accel ++ c.ffmpeg_video_audio ++
        c.ffmpeg_encoder ++
        ["-preset", "slow", "-qp", "0", "-c:a", "copy", "-v", "info"],
      by simp [Cfg.ffmpeg_dcp_cmd]⟩, hp.2.1⟩
  · exact ⟨⟨[c.ffmpeg_path] ++ c.ffmpeg_hardware_accel ++ c.ffmpeg_video_audio ++
        ["-c:v", "prores", "-profile:v", "3", "-pix_fmt", "yuv422p10le",
         "-vf", "scale=-2:1080", "-c:a", "pcm_s16le"],
      by simp [Cfg.ffmpeg_dcp_prores]⟩, hp.2.2⟩
  · exact ⟨⟨[c.ffmpeg_path] ++ c.ffmpeg_hardware_accel ++ c.ffmpeg_video_audio ++
        ["-c:v", "libx264", "-pix_fmt", "yuv420p", "-preset", "slow",
         "-crf", "21", "-ac", "2"] ++ c.ffmpeg_audio_param ++ ["-v", "info"],
      by simp [Cfg.ffmpeg_dcp_h264_cmd]⟩, hp.1⟩
  · exact ⟨⟨[c.ffmpeg_path] ++ c.ffmpeg_hardware_accel ++ c.ffmpeg_video_audio ++
        ["-c:v", "libx264", "-vf", "scale=-2:1080", "-pix_fmt", "yuv420p",
         "-preset", "slow", "-crf", "23", "-v", "info"],
      by simp [Cfg.ffmpeg_h264_from_prores_cmd]⟩, hp.1⟩
  · exact ⟨⟨[c.ffmpeg_path, "-i", c.audio_file, "-c:a", "aac", "-b:a", "192k",
        "-vn", "-v", "info"],
      by simp [Cfg.ffmpeg_audio_cmd]⟩, hp.1⟩
  · exact ⟨⟨[c.ffmpeg_path, "-i", c.audio_file, "-c:a", "pcm_s16le",
        "-vn", "-v", "info"],
      by simp [Cfg.ffmpeg_lossless_audio_cmd]⟩, hp.2.1⟩
  · exact ⟨⟨[e.ffmpeg_path,
        "-i", e.stemPath "L", "-i", e.stemPath "R", "-i", e.stemPath "C",
        "-i", e.stemPath "LFE", "-i", e.stemPath "Ls", "-i", e.stemPath "Rs",
        "-filter_complex",
        "[0][1][2][3][4][5]amerge=inputs=6,pan=6c|c0<c0|c1<c1|c2<c2|c3<c3|c4<c4|c5<c5",
        "-ac", "6", "-c:a", "pcm_s16le"],
      by simp [StemEnv.combineStep, StemEnv.combine_cmd]⟩,
      by simpa [StemEnv.combineStep, StemEnv.proceed_combine] using hcomb⟩

/-- C9 witness: the invariant instantiated at the audio AAC step of a
concrete configuration. -/
theorem builtSteps_end_with_output_flag_w :
    (∃ pre,
        (⟨"ffmpeg_audio_cmd", sampleCfg.ffmpeg_audio_cmd, sampleCfg.h264_mp4,
          sampleCfg.proceed_h264⟩ : TranscodeStep).argv =
          pre ++ [sampleCfg.h264_mp4, sampleCfg.proceed_h264]) ∧
    (sampleCfg.proceed_h264 = "-y" ∨ sampleCfg.proceed_h264 = "-n") :=
  builtSteps_end_with_output_flag sampleCfg sampleStemEnv _
    (by simp [allBuiltSteps])

/-- C8 witness: the amended audio-only property at a concrete
configuration with the mezzanine checkbox off. -/
theorem audioCommandNames_spec_w :
    audioCommandNames = ["ffmpeg_lossless_audio_cmd", "ffmpeg_audio_cmd"] ∧
    sampleCfgMezzOff.proceed_lossless = "-n" :=
  ⟨audioCommandNames_spec.1, audioCommandNames_spec.2 sampleCfgMezzOff rfl⟩

/-- C3: the sequencer runs steps strictly in list order; when the steps
before `n` all exit zero and `n`'s subprocess exits non-zero, exactly the
prefix up to and including `n` is launched — no later step ever starts —
and the run ends failed carrying `n`'s captured diagnostic text. -/
theorem execute_halts_on_failure (bhv : String → StepBehavior)
    (pre : List String) (n : String) (post : List String)
    (hpre : ∀ m ∈ pre, (bhv m).exitCode = 0)
    (hn : (bhv n).exitCode ≠ 0) :
    execute_ffmpeg_commands bhv (pre ++ n :: post) =
      (pre ++ [n], some (n, (bhv n).stderr)) := by
  induction pre with
  | nil => simp [execute_ffmpeg_commands, run_ffmpeg_command, hn]
  | cons m rest ih =>
    have hm : (bhv m).exitCode = 0 := hpre m (by simp)
    have hrest : ∀ x ∈ rest, (bhv x).exitCode = 0 :=
      fun x hx => hpre x (by simp [hx])
    simp [execute_ffmpeg_commands, run_ffmpeg_command, hm, ih hrest]

/-- C3 witness: lossless succeeds, prores fails, so h264 is never
launched and the run ends with the prores diagnostics. -/
theorem execute_halts_on_failure_w :
    execute_ffmpeg_commands sampleBhv
        (["ffmpeg_lossless_cmd"] ++ "ffmpeg_prores_cmd" :: ["ffmpeg_h264_cmd"]) =
      (["ffmpeg_lossless_cmd", "ffmpeg_prores_cmd"],
        some ("ffmpeg_prores_cmd", (sampleBhv "ffmpeg_prores_cmd").stderr)) :=
  execute_halts_on_failure sampleBhv ["ffmpeg_lossless_cmd"]
    "ffmpeg_prores_cmd" ["ffmpeg_h264_cmd"]
    (by intro m hm; simp at hm; subst hm; decide)
    (by decide)

/-- C7: an image-sequence job whose folder holds zero `*.dpx` files fails
validation: `run_smelt` reports the no-frames warning, builds no transcode
command, launches no subprocess, and returns to the idle label. -/
theorem run_smelt_no_dpx_aborts (e : SmeltEnv) (hk : e.kunLyd = false)
    (hf : e.filetype = some FileType.dpx) (hd : e.dpxFiles = [])
    (hp : e.folder_path ≠ "") :
    run_smelt e = ⟨["Finner ingen .dpx filer"], false, [], none, "Idle"⟩ := by
  simp [run_smelt, initial_setup, check_dpx_files, hk, hf, hd, hp]

/-- C7 witness: the abort at a concrete empty-folder environment. -/
theorem run_smelt_no_dpx_aborts_w :
    run_smelt emptyDpxEnv =
      ⟨["Finner ingen .dpx filer"], false, [], none, "Idle"⟩ :=
  run_smelt_no_dpx_aborts emptyDpxEnv rfl rfl rfl (by decide)

/-- C4 counterexample: with only five of the six stems present and the
operator declining the combination, the combiner returns the originally
selected file — not the IncompleteStemSet failure the claim demands
"regardless of how the operator answers". -/
theorem recognize_incomplete_declined_cex :
    (recognize_and_combine incompleteDeclinedEnv).result =
      CombineResult.keepOriginal "/p/a.L.wav" ∧
    (recognize_and_combine incompleteDeclinedEnv).result ≠
      CombineResult.incomplete := by
  decide

/-- C4 amended: with fewer than six sibling stems present (stems are
probed before anything is produced) the combiner launches zero transcode
steps; if the operator confirms the combination it fails with
IncompleteStemSet, and if the operator declines it returns the originally
selected file unchanged. -/
theorem recognize_incomplete_spec (e : StemEnv)
    (h : (stemSuffixes.filter e.presentSuffix).length < stemSuffixes.length) :
    (recognize_and_combine e).commandsRun = [] ∧
    (e.confirmCombine = true →
      recognize_and_combine e = ⟨CombineResult.incomplete, []⟩) ∧
    (e.confirmCombine = false →
      recognize_and_combine e = ⟨CombineResult.keepOriginal e.selected, []⟩) := by
  have hne : (stemSuffixes.filter e.presentSuffix).length ≠ stemSuffixes.length :=
    Nat.ne_of_lt h
  by_cases hc : e.confirmCombine <;>
    simp [recognize_and_combine, hc, hne]

/-- C4 witness: the amended property at a concrete environment missing
the `.Rs` stem, with the operator confirming. -/
theorem recognize_incomplete_spec_w :
    (recognize_and_combine incompleteConfirmedEnv).commandsRun = [] ∧
    (incompleteConfirmedEnv.confirmCombine = true →
      recognize_and_combine incompleteConfirmedEnv =
        ⟨CombineResult.incomplete, []⟩) ∧
    (incompleteConfirmedEnv.confirmCombine = false →
      recognize_and_combine incompleteConfirmedEnv =
        ⟨CombineResult.keepOriginal incompleteConfirmedEnv.selected, []⟩) :=
  recognize_incomplete_spec incompleteConfirmedEnv (by decide)

/-- Helper: once `total_duration` is set it is never reparsed. -/
theorem foldDuration_some (n : Nat) (ls : List DiagLine) :
    foldDuration (some n) ls = some n := by
  induction ls with
  | nil => rfl
  | cons l ls ih =>
    simpa [foldDuration, updateDuration] using ih

/-- Helper: with no `total_duration` yet, a line emits no progress. -/
theorem lineProgress_total_none (l : DiagLine) :
    lineProgress none l = none := by
  cases h : l.timeMark <;> simp [lineProgress, h]

/-- Helper: over lines with no duration marker, no progress is emitted
and `total_duration` stays unset. -/
theorem runProgress_none_of_no_marks (ls : List DiagLine)
    (h : ∀ l ∈ ls, l.durationMark = none) :
    runProgress none ls = [] ∧ foldDuration none ls = none := by
  induction ls with
  | nil => exact ⟨rfl, rfl⟩
  | cons l ls ih =>
    have hl : l.durationMark = none := h l (by simp)
    have ht : updateDuration none l = none := by simp [updateDuration, hl]
    have hih := ih (fun x hx => h x (by simp [hx]))
    refine ⟨?_, ?_⟩
    · simp [runProgress, ht, lineProgress_total_none, hih.1]
    · simpa [foldDuration, ht] using hih.2

/-- Helper: a parsed total duration of zero whole seconds is falsy in the
source's progress guard, so no progress is ever emitted afterwards. -/
theorem runProgress_some_zero (ls : List DiagLine) :
    runProgress (some 0) ls = [] := by
  induction ls with
  | nil => rfl
  | cons l ls ih =>
    have ht : updateDuration (some 0) l = some 0 := rfl
    have hl : lineProgress (some 0) l = none := by
      cases h : l.timeMark <;> simp [lineProgress, h]
    simp [runProgress, ht, hl, ih]

/-- C6: for a stream whose first duration marker reads 00:10:00 and which
later contains a line with time marker 00:05:00, no progress update is
emitted before the duration marker, the total duration is parsed once as
600 seconds (later markers are ignored), and the percent computed at the
time line is exactly 50 = 300 / 600 * 100. -/
theorem progress_half_is_fifty (pre mid : List DiagLine) (d t : DiagLine)
    (df tf : Nat)
    (hpre : ∀ l ∈ pre, l.durationMark = none)
    (hd : d.durationMark = some (0, 10, 0, df))
    (ht : t.timeMark = some (0, 5, 0, tf)) :
    runProgress none pre = [] ∧
    foldDuration none (pre ++ d :: mid) = some 600 ∧
    ∃ eta, lineProgress (foldDuration none (pre ++ d :: mid)) t =
      some (50, eta) := by
  obtain ⟨h1, h2⟩ := runProgress_none_of_no_marks pre hpre
  have hfold : foldDuration none (pre ++ d :: mid) = some 600 := by
    have hsplit : foldDuration none (pre ++ d :: mid) =
        foldDuration (updateDuration (foldDuration none pre) d) mid := by
      simp [foldDuration, List.foldl_append]
    rw [hsplit, h2]
    have hupd : updateDuration none d = some 600 := by
      simp [updateDuration, hd, hmsSeconds]
    rw [hupd, foldDuration_some]
  refine ⟨h1, hfold, ?_⟩
  rw [hfold]
  refine ⟨t.elapsedWall * (100 - 50) / 50, ?_⟩
  simp only [lineProgress, ht]
  norm_num [hmsSeconds]

/-- C6 witness: the property at the two-line stream
`[Duration: 00:10:00.00, time=00:05:00.00]`. -/
theorem progress_half_is_fifty_w :
    runProgress none [] = [] ∧
    foldDuration none ([] ++ durationLine :: []) = some 600 ∧
    ∃ eta, lineProgress (foldDuration none ([] ++ durationLine :: []))
      timeLine = some (50, eta) :=
  progress_half_is_fifty [] [] durationLine timeLine 0 0
    (by simp) rfl rfl

/-- C10: the percent and ETA divisions are never taken over a zero
divisor: when the stream has no duration marker, or its first duration
marker encodes zero whole seconds (the fraction is discarded), no progress
value is ever computed or emitted for any time-marker line. -/
theorem progress_no_zero_divisor (ls : List DiagLine)
    (h : ∀ m, firstDurationMark ls = some m → hmsSeconds m = 0) :
    runProgress none ls = [] := by
  induction ls with
  | nil => rfl
  | cons l ls ih =>
    cases hl : l.durationMark with
    | none =>
      have ht : updateDuration none l = none := by simp [updateDuration, hl]
      have hrec : ∀ m, firstDurationMark ls = some m → hmsSeconds m = 0 := by
        intro m hm
        apply h m
        simpa [firstDurationMark, hl] using hm
      simp [runProgress, ht, lineProgress_total_none, ih hrec]
    | some dm =>
      have hd0 : hmsSeconds dm = 0 :=
        h dm (by simp [firstDurationMark, hl])
      have ht : updateDuration none l = some 0 := by
        simp [updateDuration, hl, hd0]
      have hp : lineProgress (some 0) l = none := by
        cases htm : l.timeMark <;> simp [lineProgress, htm]
      simp [runProgress, ht, hp, runProgress_some_zero]

/-- C10 witness: a stream whose duration marker reads `00:00:00.75`
followed by a genuine time-marker line emits no update at all. -/
theorem progress_no_zero_divisor_w :
    runProgress none
      [⟨some (0, 0, 0, 75), none, 0⟩, ⟨none, some (0, 0, 1, 0), 1⟩] = [] :=
  progress_no_zero_divisor _ (by
    intro m hm
    simp [firstDurationMark] at hm
    simp [← hm, hmsSeconds])

end Smelt
